import Mathlib

/-!
Verification development for the Japanese morphological-analysis and
verb-conjugation engine of the epub reader backend.

Text is modelled as `List Char`.  The functions below are shallow
embeddings of the Python methods in
`app/services/japanese_word_parser.py` and
`app/services/verb_conjugator.py`; names follow the source methods.
-/

/-- Boolean test that `s` starts with `pat` (character lists). -/
def listStartsWith : List Char → List Char → Bool
  | _, [] => true
  | [], _ :: _ => false
  | c :: s, p :: ps => c == p && listStartsWith s ps

/-- Boolean test that `s` ends with `pat`, mirroring python `str.endswith`. -/
def listEndsWith (s pat : List Char) : Bool :=
  listStartsWith s.reverse pat.reverse

/-- Boolean substring test, mirroring python `pat in s`. -/
def listContainsSub : List Char → List Char → Bool
  | [], pat => pat.isEmpty
  | c :: s, pat => listStartsWith (c :: s) pat || listContainsSub s pat

theorem listStartsWith_iff (s pat : List Char) :
    listStartsWith s pat = true ↔ pat <+: s := by
  induction pat generalizing s with
  | nil => simp [listStartsWith]
  | cons p ps ih =>
    cases s with
    | nil => simp [listStartsWith]
    | cons c s' =>
      have hs : listStartsWith (c :: s') (p :: ps) = (c == p && listStartsWith s' ps) := rfl
      rw [hs, List.cons_prefix_cons, Bool.and_eq_true, beq_iff_eq, ih]
      exact ⟨fun h => ⟨h.1.symm, h.2⟩, fun h => ⟨h.1.symm, h.2⟩⟩

theorem listEndsWith_iff (s pat : List Char) :
    listEndsWith s pat = true ↔ pat <:+ s := by
  unfold listEndsWith
  rw [listStartsWith_iff]
  exact List.reverse_prefix

theorem listEndsWith_false_of (s a b : List Char) (ha : listEndsWith s a = true)
    (hlen : a.length ≤ b.length) (hnot : ¬ a <:+ b) : listEndsWith s b = false := by
  cases hb : listEndsWith s b with
  | false => rfl
  | true =>
    exact absurd (List.suffix_of_suffix_length_le ((listEndsWith_iff s a).1 ha)
      ((listEndsWith_iff s b).1 hb) hlen) hnot

/-- Kanji range test, mirroring the python check `'一' <= c <= '鿿'`. -/
def isKanji (c : Char) : Bool :=
  0x4e00 ≤ c.toNat && c.toNat ≤ 0x9fff

/-- Hiragana range test, mirroring the python check `'぀' <= c <= 'ゟ'`. -/
def isHira (c : Char) : Bool :=
  0x3040 ≤ c.toNat && c.toNat ≤ 0x309f

/-- The i-row and e-row kana admitted by `_is_ichidan` (source line 417). -/
def i_e_dan : List Char :=
  "いきしちにひみりえけせてねへめれ".toList

/-- Embedding of `JapaneseWordParser._is_ichidan`. -/
def is_ichidan (dictionary_form : List Char) : Bool :=
  if ! listEndsWith dictionary_form ['る'] then false
  else if dictionary_form.length < 2 then false
  else i_e_dan.contains (dictionary_form.getD (dictionary_form.length - 2) ('る'))

/-- Embedding of `JapaneseWordParser._detect_verb_form_by_ending`: the fixed
priority suffix cascade.  `pos_tags` is accepted but unused, as in the source. -/
def detect_verb_form_by_ending (surface dictionary_form : List Char)
    (pos_tags : List String) : Option String :=
  if listEndsWith surface ['さ', 'せ', 'ら', 'れ', 'た'] then some ("使役被动形-过去")
  else if listEndsWith surface ['さ', 'せ', 'ら', 'れ', 'て'] then some ("使役被动形-て形")
  else if listEndsWith surface ['さ', 'せ', 'ら', 'れ', 'る'] then some ("使役被动形")
  else if listEndsWith surface ['さ', 'せ', 'た'] then some ("使役形-过去")
  else if listEndsWith surface ['さ', 'せ', 'て'] then some ("使役形-て形")
  else if listEndsWith surface ['さ', 'せ', 'る'] then some ("使役形")
  else if listEndsWith surface ['ら', 'れ', 'た'] then some ("被动形-过去")
  else if listEndsWith surface ['ら', 'れ', 'て'] then some ("被动形-て形")
  else if listEndsWith surface ['ら', 'れ', 'る'] then
    (if is_ichidan dictionary_form then some ("可能形") else some ("被动形"))
  else if surface == dictionary_form && listEndsWith dictionary_form ['れ', 'る']
      && is_ichidan dictionary_form then
    some ("原型（一段动词）")
  else if listEndsWith surface ['れ', 'た'] then some ("被动形-过去")
  else if listEndsWith surface ['れ', 'て'] then some ("被动形-て形")
  else if listEndsWith surface ['れ', 'る'] then some ("被动形")
  else if listEndsWith surface ['な', 'か', 'っ', 'た'] then some ("否定形-过去")
  else if listEndsWith surface ['な', 'く', 'て'] then some ("否定形-て形")
  else if listEndsWith surface ['な', 'い'] then some ("否定形")
  else if listEndsWith surface ['ま', 'せ', 'ん', 'で', 'し', 'た'] then some ("否定形-过去")
  else if listEndsWith surface ['ま', 'し', 'た'] then some ("敬体过去形")
  else if listEndsWith surface ['ま', 'す'] then some ("敬体形")
  else none

/-- Inner while-loop of `_generate_complete_reading`: consume reading characters
for one kanji until a character is reached that is hiragana and occurs later in
the dictionary form (`dfTail`); returns the consumed part and the remainder. -/
def takeKanjiReading (dfTail : List Char) : List Char → List Char × List Char
  | [] => ([], [])
  | c :: rest =>
    if isHira c && dfTail.contains c then ([], c :: rest)
    else
      let p := takeKanjiReading dfTail rest
      (c :: p.1, p.2)

/-- Outer loop of `_generate_complete_reading`: walk the dictionary form,
assigning each kanji the reading slice produced by `takeKanjiReading` and
skipping matching kana in the reading. -/
def buildKanjiMap : List Char → List Char → List (Char × List Char)
  | [], _ => []
  | c :: dfTail, rd =>
    if isKanji c then
      let p := takeKanjiReading dfTail rd
      (c, p.1) :: buildKanjiMap dfTail p.2
    else
      match rd with
      | r :: rtail => if r == c then buildKanjiMap dfTail rtail else buildKanjiMap dfTail (r :: rtail)
      | [] => buildKanjiMap dfTail []

/-- Lookup in the kanji map with python-dict overwrite semantics: the latest
binding of a key wins. -/
def lookupLast (m : List (Char × List Char)) (k : Char) : Option (List Char) :=
  match m with
  | [] => none
  | (a, v) :: rest =>
    match lookupLast rest k with
    | some v2 => some v2
    | none => if a == k then some v else none

/-- Final substitution pass of `_generate_complete_reading`: kanji are replaced
by their mapped reading (or kept when unmapped), kana are kept verbatim. -/
def substituteKanji (m : List (Char × List Char)) : List Char → List Char
  | [] => []
  | c :: rest =>
    (if isKanji c then (lookupLast m c).getD [c] else [c]) ++ substituteKanji m rest

/-- Embedding of `JapaneseWordParser._generate_complete_reading`. -/
def generate_complete_reading (surface dictionary_form dictionary_reading : List Char) :
    List Char :=
  if surface == dictionary_form then dictionary_reading
  else substituteKanji (buildKanjiMap dictionary_form dictionary_reading) surface

/-- Row variants (a/i/u/e/o columns) of a godan ending. -/
structure GodanRow where
  a : Char
  i : Char
  u : Char
  e : Char
  o : Char
deriving Repr, DecidableEq

/-- Embedding of the `godan_map` dictionary lookup including its
`.get(ending, godan_map[る])` fallback. -/
def godan_map (ending : Char) : GodanRow :=
  if ending == ('う') then ⟨'わ', 'い', 'う', 'え', 'お'⟩
  else if ending == ('く') then ⟨'か', 'き', 'く', 'け', 'こ'⟩
  else if ending == ('ぐ') then ⟨'が', 'ぎ', 'ぐ', 'げ', 'ご'⟩
  else if ending == ('す') then ⟨'さ', 'し', 'す', 'せ', 'そ'⟩
  else if ending == ('つ') then ⟨'た', 'ち', 'つ', 'て', 'と'⟩
  else if ending == ('ぬ') then ⟨'な', 'に', 'ぬ', 'ね', 'の'⟩
  else if ending == ('ぶ') then ⟨'ば', 'び', 'ぶ', 'べ', 'ぼ'⟩
  else if ending == ('む') then ⟨'ま', 'み', 'む', 'め', 'も'⟩
  else if ending == ('る') then ⟨'ら', 'り', 'る', 'れ', 'ろ'⟩
  else ⟨'ら', 'り', 'る', 'れ', 'ろ'⟩

/-- Embedding of the `te_ta_rules` dictionary lookup including its
`.get(ending, (って, った))` fallback. -/
def te_ta_rules (ending : Char) : List Char × List Char :=
  if ending == ('く') then ("いて".toList, "いた".toList)
  else if ending == ('ぐ') then ("いで".toList, "いだ".toList)
  else if ending == ('す') then ("して".toList, "した".toList)
  else if ending == ('う') then ("って".toList, "った".toList)
  else if ending == ('つ') then ("って".toList, "った".toList)
  else if ending == ('る') then ("って".toList, "った".toList)
  else if ending == ('ぬ') then ("んで".toList, "んだ".toList)
  else if ending == ('ぶ') then ("んで".toList, "んだ".toList)
  else if ending == ('む') then ("んで".toList, "んだ".toList)
  else ("って".toList, "った".toList)

/-- Embedding of `JapaneseVerbConjugator._conjugate_godan`.  The python code
indexes `verb[-1]`, which raises on an empty verb; that partiality is made
explicit with `Option`. -/
def conjugate_godan (verb : List Char) : Option (List (String × List Char)) :=
  match verb.getLast? with
  | none => none
  | some ending =>
    let stem := verb.dropLast
    let ch := godan_map ending
    let tt := te_ta_rules ending
    some [("dictionary_form", verb),
      ("masu_form", stem ++ [ch.i] ++ ['ま', 'す']),
      ("te_form", stem ++ tt.1),
      ("ta_form", stem ++ tt.2),
      ("nai_form", stem ++ [ch.a] ++ ['な', 'い']),
      ("nakatta_form", stem ++ [ch.a] ++ ['な', 'か', 'っ', 'た']),
      ("ba_form", stem ++ [ch.e] ++ ("ば".toList)),
      ("command_form", stem ++ [ch.e]),
      ("volitional_form", stem ++ [ch.o] ++ ("う".toList)),
      ("passive_form", stem ++ [ch.a] ++ ['れ', 'る']),
      ("causative_form", stem ++ [ch.a] ++ ("せる".toList)),
      ("potential_form", stem ++ [ch.e] ++ ['る']),
      ("causative_passive_form", stem ++ [ch.a] ++ ("せられる".toList))]

/-- Embedding of `JapaneseVerbConjugator._conjugate_ichidan`. -/
def conjugate_ichidan (verb : List Char) : List (String × List Char) :=
  let stem := verb.dropLast
  [("dictionary_form", verb),
   ("masu_form", stem ++ ['ま', 'す']),
   ("te_form", stem ++ ("て".toList)),
   ("ta_form", stem ++ ("た".toList)),
   ("nai_form", stem ++ ['な', 'い']),
   ("nakatta_form", stem ++ ['な', 'か', 'っ', 'た']),
   ("ba_form", stem ++ ("れば".toList)),
   ("command_form", stem ++ ("ろ".toList)),
   ("volitional_form", stem ++ ("よう".toList)),
   ("passive_form", stem ++ ['ら', 'れ', 'る']),
   ("causative_form", stem ++ ['さ', 'せ', 'る']),
   ("potential_form", stem ++ ['ら', 'れ', 'る']),
   ("causative_passive_form", stem ++ ['さ', 'せ', 'ら', 'れ', 'る'])]

/-- Embedding of `JapaneseVerbConjugator._conjugate_suru`. -/
def conjugate_suru (verb : List Char) : List (String × List Char) :=
  let stem := if verb == ("する".toList) then [] else verb.take (verb.length - 2)
  [("dictionary_form", verb),
   ("masu_form", stem ++ ("します".toList)),
   ("te_form", stem ++ ("して".toList)),
   ("ta_form", stem ++ ("した".toList)),
   ("nai_form", stem ++ ("しない".toList)),
   ("nakatta_form", stem ++ ("しなかった".toList)),
   ("ba_form", stem ++ ("すれば".toList)),
   ("command_form", stem ++ ("しろ".toList)),
   ("volitional_form", stem ++ ("しよう".toList)),
   ("passive_form", stem ++ ("される".toList)),
   ("causative_form", stem ++ ['さ', 'せ', 'る']),
   ("potential_form", stem ++ ("できる".toList)),
   ("causative_passive_form", stem ++ ['さ', 'せ', 'ら', 'れ', 'る'])]

/-- Embedding of `JapaneseVerbConjugator._conjugate_kuru`: a fixed literal table. -/
def conjugate_kuru (verb : List Char) : List (String × List Char) :=
  [("dictionary_form", "来る（くる）".toList),
   ("masu_form", "来ます（きます）".toList),
   ("te_form", "来て（きて）".toList),
   ("ta_form", "来た（きた）".toList),
   ("nai_form", "来ない（こない）".toList),
   ("nakatta_form", "来なかった（こなかった）".toList),
   ("ba_form", "来れば（くれば）".toList),
   ("command_form", "来い（こい）".toList),
   ("volitional_form", "来よう（こよう）".toList),
   ("passive_form", "来られる（こられる）".toList),
   ("causative_form", "来させる（こさせる）".toList),
   ("potential_form", "来られる（こられる）".toList),
   ("causative_passive_form", "来させられる（こさせられる）".toList)]

/-- Embedding of `JapaneseVerbConjugator._conjugate_default` (unrecognized class). -/
def conjugate_default (verb : List Char) : List (String × List Char) :=
  [("dictionary_form", verb),
   ("masu_form", "（需要指定动词类型）".toList),
   ("te_form", "（需要指定动词类型）".toList),
   ("ta_form", "（需要指定动词类型）".toList),
   ("nai_form", "（需要指定动词类型）".toList)]

/-- Embedding of `JapaneseVerbConjugator.conjugate`: dispatch on substring
markers of the class label, in source order. -/
def conjugate (verb verb_type : List Char) : Option (List (String × List Char)) :=
  if listContainsSub verb_type ['五', '段'] then conjugate_godan verb
  else if listContainsSub verb_type ['一', '段'] then
    (if listContainsSub verb_type ['上', '一', '段'] || listContainsSub verb_type ['下', '一', '段']
      then some (conjugate_ichidan verb)
      else some (conjugate_ichidan verb))
  else if listContainsSub verb_type ['サ', '行', '変', '格'] then some (conjugate_suru verb)
  else if listContainsSub verb_type ['カ', '行', '変', '格'] then some (conjugate_kuru verb)
  else some (conjugate_default verb)

/-- The thirteen canonical keys every supported conjugation table carries,
in source order. -/
def canonical_keys : List String :=
  ["dictionary_form", "masu_form", "te_form", "ta_form", "nai_form",
   "nakatta_form", "ba_form", "command_form", "volitional_form",
   "passive_form", "causative_form", "potential_form", "causative_passive_form"]

/-- One sense group of a lexicon entry, as built by `_lookup_dict`. -/
structure DictMeaning where
  pos : String
  meanings : List String
deriving Repr, DecidableEq

/-- One lexicon entry, as built by `_lookup_dict`. -/
structure DictEntry where
  kanji : String
  readings : List String
  meanings : List DictMeaning
deriving Repr, DecidableEq

/-- The verb-type dictionary built by `_get_verb_type` (its `class` key is
named `vclass` here). -/
structure VerbTypeInfo where
  transitivity : String
  conjugation_type : String
  vclass : String
deriving Repr, DecidableEq

/-- The morphology dictionary built by `_analyze_with_sudachi`.  Python `None`
values are modelled with `Option`. -/
structure Morphology where
  surface : String
  dictionary_form : String
  surface_reading : String
  dictionary_reading : String
  normalized_form : String
  pos : List String
  pos_type : String
  verb_type : Option VerbTypeInfo
  verb_form : Option String
deriving Repr, DecidableEq

/-- The conjugation sub-dictionary of a vocabulary item.  Keys that the python
code only sometimes inserts are modelled with defaults / `Option`. -/
structure ConjugationInfo where
  has_conjugation : Bool
  original_form : String := ""
  current_form : String := ""
  conjugation_type : Option String := none
  reason : Option String := none
  verb_class : String := ""
  transitivity : String := ""
  all_forms : Option (List (String × List Char)) := none
deriving Repr, DecidableEq

/-- One vocabulary item of the unified record. -/
structure VocabEntry where
  word : String
  reading : String
  meaning : String
  level : String
  conjugation : ConjugationInfo
deriving Repr, DecidableEq

/-- The unified analysis record built by `_build_unified_result`. -/
structure UnifiedResult where
  translation : String
  grammar_points : List String
  vocabulary : List VocabEntry
  special_notes : List String
deriving Repr, DecidableEq

/-- Embedding of `JapaneseWordParser._build_translation`.  Python tests
`if not dict_results`, so `none` and `some []` behave alike. -/
def build_translation (dict_results : Option (List DictEntry)) : String :=
  match dict_results with
  | none => "（词典中未找到该词）"
  | some [] => "（词典中未找到该词）"
  | some (e :: _) =>
    match e.meanings with
    | [] => "（无释义）"
    | m :: _ => String.intercalate ("、") (m.meanings.take 3)

/-- Embedding of `JapaneseWordParser._build_special_notes` (the morphology
argument is unused in the source as well). -/
def build_special_notes (morphology : Option Morphology)
    (dict_results : Option (List DictEntry)) : List String :=
  match dict_results with
  | none => ["⚠️ 词典中未找到该词", "💡 可能是：1) 变形词 2) 专有名词 3) 较新的词汇"]
  | some [] => ["⚠️ 词典中未找到该词", "💡 可能是：1) 变形词 2) 专有名词 3) 较新的词汇"]
  | some (_ :: _) => []

/-- Embedding of the `form_map` lookup in `_translate_verb_form`, with its
`.get(form, form)` default. -/
def translate_verb_form (form : Option String) : Option String :=
  form.map (fun f =>
    let m : List (String × String) :=
      [("終止形-一般", "原型（辞书形）"),
        ("連用形-一般", "连用形"),
        ("連用形-促音便", "た形（过去形）"),
        ("仮定形-一般", "假定形（ば形）"),
        ("命令形", "命令形"),
        ("未然形-一般", "未然形"),
        ("連体形-一般", "连体形"),
        ("被动形", "被动形（受身形）"),
        ("被动形-过去", "被动形的过去式"),
        ("被动形-て形", "被动形的て形"),
        ("使役形", "使役形"),
        ("使役形-过去", "使役形的过去式"),
        ("使役形-て形", "使役形的て形"),
       ("否定形", "否定形（ない形）"),
       ("否定形-过去", "否定形的过去式"),
       ("否定形-て形", "否定形的て形")]
    ((m.find? (fun p => p.1 == f)).map Prod.snd).getD f)

/-- Embedding of the `explanations` lookup in `_explain_verb_form`, with its
fixed default text. -/
def explain_verb_form (form : Option String) : Option String :=
  form.map (fun f =>
    let m : List (String × String) :=
      [("終止形-一般", "原型，用于结句或作为辞书形"),
        ("連用形-一般", "用于连接其他动词或助词"),
        ("連用形-促音便", "过去形（た形），表示动作已完成"),
        ("仮定形-一般", "假定形，用于表达假设条件"),
        ("命令形", "命令形，用于表达命令或指示"),
        ("未然形-一般", "未然形，用于接续否定助词ない等"),
        ("連体形-一般", "连体形，用于修饰名词"),
        ("被动形", "被动形，表示被动语态"),
        ("被动形-过去", "被动形的过去式"),
        ("被动形-て形", "被动形的て形"),
        ("使役形", "使役形，表示让/使某人做某事"),
        ("使役形-过去", "使役形的过去式"),
        ("使役形-て形", "使役形的て形"),
       ("否定形", "否定形，表示否定"),
       ("否定形-过去", "否定形的过去式"),
       ("否定形-て形", "否定形的て形")]
    ((m.find? (fun p => p.1 == f)).map Prod.snd).getD ("具体用法请参考语法书"))

/-- Embedding of `JapaneseWordParser._translate_transitivity`. -/
def translate_transitivity (t : String) : String :=
  if listContainsSub t.toList ("自立".toList) then "自动词"
  else if t == "" then ""
  else t

/-- Embedding of `JapaneseWordParser._build_verb_conjugation`.  The
`try/except` around the conjugator is modelled by the `Option` result of
`conjugate`: `none` (python: an exception) leaves `all_forms` absent. -/
def build_verb_conjugation (morphology : Morphology) : ConjugationInfo :=
  match morphology.verb_type with
  | none => { has_conjugation := false }
  | some vt =>
    let dictionary_form := morphology.dictionary_form
    let surface_form := morphology.surface
    let current_form :=
      match detect_verb_form_by_ending surface_form.toList dictionary_form.toList
          morphology.pos with
      | some d => some d
      | none => morphology.verb_form
    { has_conjugation := true
      original_form := dictionary_form ++ "（" ++ vt.vclass ++ "）"
      current_form := surface_form
      conjugation_type := translate_verb_form current_form
      reason := explain_verb_form current_form
      verb_class := vt.vclass
      transitivity := translate_transitivity vt.transitivity
      all_forms := conjugate dictionary_form.toList vt.vclass.toList }

/-- Embedding of `JapaneseWordParser._build_vocabulary`. -/
def build_vocabulary (word : String) (morphology : Option Morphology)
    (dict_results : Option (List DictEntry)) : List VocabEntry :=
  let mv : VocabEntry :=
    { word := word, reading := "", meaning := "", level := "N2",
      conjugation := { has_conjugation := false } }
  let mv :=
    match morphology with
    | none => mv
    | some mo =>
      let mv :=
        if mo.surface_reading == "" then
          { mv with reading := String.mk (generate_complete_reading mo.surface.toList
              mo.dictionary_form.toList mo.dictionary_reading.toList) }
        else { mv with reading := mo.surface_reading }
      if mo.pos_type == "verb" then
        match mo.verb_type with
        | some _ => { mv with conjugation := build_verb_conjugation mo }
        | none => mv
      else mv
  let mv :=
    match dict_results with
    | none => mv
    | some [] => mv
    | some (e :: _) =>
      let mv :=
        if mv.reading == "" && ! e.readings.isEmpty then
          { mv with reading := e.readings.headD ("") }
        else mv
      match e.meanings with
      | [] => mv
      | m :: _ => { mv with meaning := String.intercalate ("；") (m.meanings.take 2) }
  [mv]

/-- Embedding of `JapaneseWordParser._build_unified_result`. -/
def build_unified_result (word : String) (morphology : Option Morphology)
    (dict_results : Option (List DictEntry)) : UnifiedResult :=
  { translation := build_translation dict_results
    grammar_points := []
    vocabulary := build_vocabulary word morphology dict_results
    special_notes := build_special_notes morphology dict_results }

/-- Modelled from the spec: the §4.1 reading-reconstruction algorithm as the
specification words it (kanji stem boundary at the first kana of the
dictionary form, stem reading up to the matching reading character, surface
suffix taken verbatim), used to compare against the source algorithm
`generate_complete_reading`. -/
def spec_reconstruct_reading (surface dictionary_form dictionary_reading : List Char) :
    List Char :=
  if surface == dictionary_form then dictionary_reading
  else
    match dictionary_form.findIdx? (fun c => isHira c) with
    | some b =>
      let firstKana := dictionary_form.getD b (' ')
      dictionary_reading.takeWhile (fun c => c ≠ firstKana) ++ surface.drop b
    | none =>
      match surface.findIdx? (fun c => isHira c) with
      | some b => dictionary_reading ++ surface.drop b
      | none => dictionary_reading

/-- The claim-side "ends in る with the preceding character in the set `S`"
predicate used to state the two-character ichidan lookup. -/
def twoCharIchidan (S : Finset Char) (w : List Char) : Prop :=
  ∃ u : List Char, ∃ c : Char, w = u ++ [c, 'る'] ∧ c ∈ S

/-- The source character set of `_is_ichidan` as a finite set. -/
def i_e_dan_finset : Finset Char :=
  i_e_dan.toFinset

/-- C9: for every dictionary form and dictionary reading, when the surface
form equals the dictionary form, reading reconstruction returns the
dictionary reading unchanged. -/
theorem reading_roundtrip_same_surface (dictionary_form dictionary_reading : List Char) :
    generate_complete_reading dictionary_form dictionary_form dictionary_reading
      = dictionary_reading := by
  simp [generate_complete_reading]

/-- C8: for every dictionary-form verb conjugated as ichidan, the generated
potential-form entry is character-for-character identical to the passive-form
entry, both equal to stem + られる. -/
theorem ichidan_potential_eq_passive (verb : List Char) :
    List.lookup ("potential_form") (conjugate_ichidan verb)
        = List.lookup ("passive_form") (conjugate_ichidan verb)
      ∧ List.lookup ("potential_form") (conjugate_ichidan verb)
        = some (verb.dropLast ++ ['ら', 'れ', 'る']) := by
  exact ⟨rfl, rfl⟩

/-- C7: building the unified record with morphology and lexicon entries both
absent never fails, and returns a schema-valid record whose special notes are
non-empty and whose translation is the explicit not-found placeholder. -/
theorem unify_none_none_graceful (word : String) :
    (build_unified_result word none none).special_notes ≠ []
      ∧ (build_unified_result word none none).translation = "（词典中未找到该词）"
      ∧ build_unified_result word none none =
        { translation := "（词典中未找到该词）",
          grammar_points := [],
          vocabulary := [{ word := word, reading := "", meaning := "", level := "N2",
                           conjugation := { has_conjugation := false } }],
          special_notes := ["⚠️ 词典中未找到该词",
            "💡 可能是：1) 变形词 2) 专有名词 3) 较新的词汇"] } := by
  refine ⟨?_, rfl, rfl⟩
  intro h
  simp [build_unified_result, build_special_notes] at h

/-- C3: every surface form ending in a causative-passive suffix (which by
substring also ends in a plain passive suffix) is classified as
causative-passive, never as passive: the cascade checks the most specific
patterns first. -/
theorem detect_causative_passive_priority (surface dictionary_form : List Char)
    (pos_tags : List String) :
    (listEndsWith surface ['さ', 'せ', 'ら', 'れ', 'た'] = true →
      detect_verb_form_by_ending surface dictionary_form pos_tags = some ("使役被动形-过去"))
    ∧ (listEndsWith surface ['さ', 'せ', 'ら', 'れ', 'て'] = true →
      detect_verb_form_by_ending surface dictionary_form pos_tags = some ("使役被动形-て形"))
    ∧ (listEndsWith surface ['さ', 'せ', 'ら', 'れ', 'る'] = true →
      detect_verb_form_by_ending surface dictionary_form pos_tags = some ("使役被动形")) := by
  refine ⟨fun h => ?_, fun h => ?_, fun h => ?_⟩
  · simp [detect_verb_form_by_ending, h]
  · have e1 : listEndsWith surface ['さ', 'せ', 'ら', 'れ', 'た'] = false :=
      listEndsWith_false_of surface _ _ h (by decide) (by decide)
    simp [detect_verb_form_by_ending, e1, h]
  · have e1 : listEndsWith surface ['さ', 'せ', 'ら', 'れ', 'た'] = false :=
      listEndsWith_false_of surface _ _ h (by decide) (by decide)
    have e2 : listEndsWith surface ['さ', 'せ', 'ら', 'れ', 'て'] = false :=
      listEndsWith_false_of surface _ _ h (by decide) (by decide)
    simp [detect_verb_form_by_ending, e1, e2, h]

/-- C3 witness at concrete inputs. -/
theorem detect_causative_passive_priority_witness :
    detect_verb_form_by_ending ("たべさせられた".toList) ("たべる".toList) [] = some ("使役被动形-过去")
    ∧ detect_verb_form_by_ending ("たべさせられて".toList) ("たべる".toList) [] = some ("使役被动形-て形")
    ∧ detect_verb_form_by_ending ("たべさせられる".toList) ("たべる".toList) [] = some ("使役被动形") :=
  ⟨(detect_causative_passive_priority ("たべさせられた".toList) ("たべる".toList) []).1 (by decide),
   (detect_causative_passive_priority ("たべさせられて".toList) ("たべる".toList) []).2.1 (by decide),
   (detect_causative_passive_priority ("たべさせられる".toList) ("たべる".toList) []).2.2 (by decide)⟩

/-- C1: a surface form ending in the plain られる suffix (and not in the
causative-passive させられる) is classified as potential exactly when the
dictionary form passes the ichidan stem test, otherwise as passive; the past
られた and te られて variants (outside the causative patterns) are always
classified as passive. -/
theorem detect_rareru_potential_passive (surface dictionary_form : List Char)
    (pos_tags : List String) :
    (listEndsWith surface ['ら', 'れ', 'る'] = true →
      listEndsWith surface ['さ', 'せ', 'ら', 'れ', 'る'] = false →
      detect_verb_form_by_ending surface dictionary_form pos_tags
        = some (if is_ichidan dictionary_form then "可能形" else "被动形"))
    ∧ (listEndsWith surface ['ら', 'れ', 'た'] = true →
      listEndsWith surface ['さ', 'せ', 'ら', 'れ', 'た'] = false →
      detect_verb_form_by_ending surface dictionary_form pos_tags = some ("被动形-过去"))
    ∧ (listEndsWith surface ['ら', 'れ', 'て'] = true →
      listEndsWith surface ['さ', 'せ', 'ら', 'れ', 'て'] = false →
      detect_verb_form_by_ending surface dictionary_form pos_tags = some ("被动形-て形")) := by
  refine ⟨fun h hno => ?_, fun h hno => ?_, fun h hno => ?_⟩
  · have e1 : listEndsWith surface ['さ', 'せ', 'ら', 'れ', 'た'] = false :=
      listEndsWith_false_of surface _ _ h (by decide) (by decide)
    have e2 : listEndsWith surface ['さ', 'せ', 'ら', 'れ', 'て'] = false :=
      listEndsWith_false_of surface _ _ h (by decide) (by decide)
    have e4 : listEndsWith surface ['さ', 'せ', 'た'] = false :=
      listEndsWith_false_of surface _ _ h (by decide) (by decide)
    have e5 : listEndsWith surface ['さ', 'せ', 'て'] = false :=
      listEndsWith_false_of surface _ _ h (by decide) (by decide)
    have e6 : listEndsWith surface ['さ', 'せ', 'る'] = false :=
      listEndsWith_false_of surface _ _ h (by decide) (by decide)
    have e7 : listEndsWith surface ['ら', 'れ', 'た'] = false :=
      listEndsWith_false_of surface _ _ h (by decide) (by decide)
    have e8 : listEndsWith surface ['ら', 'れ', 'て'] = false :=
      listEndsWith_false_of surface _ _ h (by decide) (by decide)
    cases hi : is_ichidan dictionary_form with
    | true => simp [detect_verb_form_by_ending, e1, e2, hno, e4, e5, e6, e7, e8, h, hi]
    | false => simp [detect_verb_form_by_ending, e1, e2, hno, e4, e5, e6, e7, e8, h, hi]
  · have e2 : listEndsWith surface ['さ', 'せ', 'ら', 'れ', 'て'] = false :=
      listEndsWith_false_of surface _ _ h (by decide) (by decide)
    have e3 : listEndsWith surface ['さ', 'せ', 'ら', 'れ', 'る'] = false :=
      listEndsWith_false_of surface _ _ h (by decide) (by decide)
    have e4 : listEndsWith surface ['さ', 'せ', 'た'] = false :=
      listEndsWith_false_of surface _ _ h (by decide) (by decide)
    have e5 : listEndsWith surface ['さ', 'せ', 'て'] = false :=
      listEndsWith_false_of surface _ _ h (by decide) (by decide)
    have e6 : listEndsWith surface ['さ', 'せ', 'る'] = false :=
      listEndsWith_false_of surface _ _ h (by decide) (by decide)
    simp [detect_verb_form_by_ending, hno, e2, e3, e4, e5, e6, h]
  · have e1 : listEndsWith surface ['さ', 'せ', 'ら', 'れ', 'た'] = false :=
      listEndsWith_false_of surface _ _ h (by decide) (by decide)
    have e3 : listEndsWith surface ['さ', 'せ', 'ら', 'れ', 'る'] = false :=
      listEndsWith_false_of surface _ _ h (by decide) (by decide)
    have e4 : listEndsWith surface ['さ', 'せ', 'た'] = false :=
      listEndsWith_false_of surface _ _ h (by decide) (by decide)
    have e5 : listEndsWith surface ['さ', 'せ', 'て'] = false :=
      listEndsWith_false_of surface _ _ h (by decide) (by decide)
    have e6 : listEndsWith surface ['さ', 'せ', 'る'] = false :=
      listEndsWith_false_of surface _ _ h (by decide) (by decide)
    have e7 : listEndsWith surface ['ら', 'れ', 'た'] = false :=
      listEndsWith_false_of surface _ _ h (by decide) (by decide)
    simp [detect_verb_form_by_ending, e1, hno, e3, e4, e5, e6, e7, h]

/-- C1 witness at concrete inputs: かりる passes the stem test (り is in the
i-row), 読む does not end in る, and the past/te variants are passive. -/
theorem detect_rareru_potential_passive_witness :
    detect_verb_form_by_ending ("かりられる".toList) ("かりる".toList) []
      = some (if is_ichidan ("かりる".toList) then "可能形" else "被动形")
    ∧ detect_verb_form_by_ending ("読まられる".toList) ("読む".toList) []
      = some (if is_ichidan ("読む".toList) then "可能形" else "被动形")
    ∧ detect_verb_form_by_ending ("たべられた".toList) ("たべる".toList) [] = some ("被动形-过去")
    ∧ detect_verb_form_by_ending ("たべられて".toList) ("たべる".toList) [] = some ("被动形-て形") :=
  ⟨(detect_rareru_potential_passive ("かりられる".toList) ("かりる".toList) []).1
      (by decide) (by decide),
   (detect_rareru_potential_passive ("読まられる".toList) ("読む".toList) []).1
      (by decide) (by decide),
   (detect_rareru_potential_passive ("たべられた".toList) ("たべる".toList) []).2.1
      (by decide) (by decide),
   (detect_rareru_potential_passive ("たべられて".toList) ("たべる".toList) []).2.2
      (by decide) (by decide)⟩

/-- C5: for every supported verb class marker and non-empty verb, `conjugate`
returns a table whose key list is exactly the thirteen canonical form keys,
with no missing entries. -/
theorem conjugate_supported_keys_complete (verb verb_type : List Char)
    (hverb : verb ≠ [])
    (hsupp : listContainsSub verb_type ['五', '段'] = true
      ∨ listContainsSub verb_type ['一', '段'] = true
      ∨ listContainsSub verb_type ['サ', '行', '変', '格'] = true
      ∨ listContainsSub verb_type ['カ', '行', '変', '格'] = true) :
    (conjugate verb verb_type).map (fun t => t.map Prod.fst) = some canonical_keys := by
  obtain ⟨ending, hend⟩ : ∃ e, verb.getLast? = some e := by
    cases he : verb.getLast? with
    | some e => exact ⟨e, rfl⟩
    | none => exact absurd (List.getLast?_eq_none_iff.1 he) hverb
  unfold conjugate
  cases h1 : listContainsSub verb_type ['五', '段'] with
  | true =>
    simp only [if_true]
    simp only [conjugate_godan, hend]
    rfl
  | false =>
    simp only [Bool.false_eq_true, if_false]
    cases h2 : listContainsSub verb_type ['一', '段'] with
    | true =>
      simp only [if_true, ite_self]
      rfl
    | false =>
      simp only [Bool.false_eq_true, if_false]
      cases h3 : listContainsSub verb_type ['サ', '行', '変', '格'] with
      | true =>
        simp only [if_true]
        rfl
      | false =>
        simp only [Bool.false_eq_true, if_false]
        cases h4 : listContainsSub verb_type ['カ', '行', '変', '格'] with
        | true =>
          simp only [if_true]
          rfl
        | false =>
          rcases hsupp with h | h | h | h <;> simp_all

/-- C5 witness at concrete inputs. -/
theorem conjugate_supported_keys_complete_witness :
    (conjugate ("かく".toList) ("五段動詞".toList)).map (fun t => t.map Prod.fst)
      = some canonical_keys :=
  conjugate_supported_keys_complete ("かく".toList) ("五段動詞".toList)
    (by decide) (Or.inl (by decide))

/-- C6 counterexample: for an unrecognized class label the returned table is
the default table, whose dictionary-form entry holds the input verb itself,
so not every entry is the placeholder sentinel. -/
theorem default_table_not_all_placeholder :
    conjugate ("たべる".toList) ("名詞".toList) = some (conjugate_default ("たべる".toList))
    ∧ ¬ (∀ p ∈ conjugate_default ("たべる".toList), p.2 = "（需要指定动词类型）".toList) := by
  exact ⟨by decide, by decide⟩

/-- C6 amended: for every verb and every unrecognized class label, `conjugate`
returns (without failing) the five-entry default table whose dictionary-form
entry echoes the verb and whose four other entries are the placeholder
sentinel. -/
theorem default_table_placeholder_amended (verb verb_type : List Char)
    (h1 : listContainsSub verb_type ['五', '段'] = false)
    (h2 : listContainsSub verb_type ['一', '段'] = false)
    (h3 : listContainsSub verb_type ['サ', '行', '変', '格'] = false)
    (h4 : listContainsSub verb_type ['カ', '行', '変', '格'] = false) :
    conjugate verb verb_type
      = some [("dictionary_form", verb),
        ("masu_form", "（需要指定动词类型）".toList),
        ("te_form", "（需要指定动词类型）".toList),
        ("ta_form", "（需要指定动词类型）".toList),
        ("nai_form", "（需要指定动词类型）".toList)] := by
  unfold conjugate
  simp only [h1, h2, h3, h4, Bool.false_eq_true, if_false]
  rfl

/-- C6 amended witness at concrete inputs. -/
theorem default_table_placeholder_amended_witness :
    conjugate ("たべる".toList) ("名詞".toList)
      = some [("dictionary_form", "たべる".toList),
        ("masu_form", "（需要指定动词类型）".toList),
        ("te_form", "（需要指定动词类型）".toList),
        ("ta_form", "（需要指定动词类型）".toList),
        ("nai_form", "（需要指定动词类型）".toList)] :=
  default_table_placeholder_amended ("たべる".toList) ("名詞".toList)
    (by decide) (by decide) (by decide) (by decide)

theorem godan_map_fallback (ending : Char)
    (h : ending ∉ (['う', 'く', 'ぐ', 'す', 'つ', 'ぬ', 'ぶ', 'む', 'る'] : List Char)) :
    godan_map ending = ⟨'ら', 'り', 'る', 'れ', 'ろ'⟩ := by
  simp only [List.mem_cons, List.not_mem_nil, or_false, not_or] at h
  obtain ⟨n1, n2, n3, n4, n5, n6, n7, n8, n9⟩ := h
  simp [godan_map, n1, n2, n3, n4, n5, n6, n7, n8, n9]

theorem te_ta_rules_fallback (ending : Char)
    (h : ending ∉ (['う', 'く', 'ぐ', 'す', 'つ', 'ぬ', 'ぶ', 'む', 'る'] : List Char)) :
    te_ta_rules ending = ("って".toList, "った".toList) := by
  simp only [List.mem_cons, List.not_mem_nil, or_false, not_or] at h
  obtain ⟨n1, n2, n3, n4, n5, n6, n7, n8, n9⟩ := h
  simp [te_ta_rules, n1, n2, n3, n4, n5, n6, n7, n8, n9]

/-- C10: for every non-empty verb whose final character is outside the nine
supported godan row endings, godan conjugation still returns the complete
thirteen-entry table, falling back to the る-row column variants and to the
って/った te/ta pair. -/
theorem godan_unknown_ending_fallback (verb : List Char) (ending : Char)
    (hend : verb.getLast? = some ending)
    (hnot : ending ∉ (['う', 'く', 'ぐ', 'す', 'つ', 'ぬ', 'ぶ', 'む', 'る'] : List Char)) :
    conjugate_godan verb
      = some [("dictionary_form", verb),
        ("masu_form", verb.dropLast ++ ['り'] ++ ("ます".toList)),
        ("te_form", verb.dropLast ++ ("って".toList)),
        ("ta_form", verb.dropLast ++ ("った".toList)),
        ("nai_form", verb.dropLast ++ ['ら'] ++ ("ない".toList)),
        ("nakatta_form", verb.dropLast ++ ['ら'] ++ ("なかった".toList)),
        ("ba_form", verb.dropLast ++ ['れ'] ++ ("ば".toList)),
        ("command_form", verb.dropLast ++ ['れ']),
        ("volitional_form", verb.dropLast ++ ['ろ'] ++ ("う".toList)),
        ("passive_form", verb.dropLast ++ ['ら'] ++ ("れる".toList)),
        ("causative_form", verb.dropLast ++ ['ら'] ++ ("せる".toList)),
        ("potential_form", verb.dropLast ++ ['れ'] ++ ("る".toList)),
        ("causative_passive_form", verb.dropLast ++ ['ら'] ++ ("せられる".toList))] := by
  simp only [conjugate_godan, hend, godan_map_fallback ending hnot,
    te_ta_rules_fallback ending hnot]
  rfl

/-- C10 witness at a concrete input ending in い, which is not a godan row
ending. -/
theorem godan_unknown_ending_fallback_witness :
    conjugate_godan ("すごい".toList)
      = some [("dictionary_form", "すごい".toList),
        ("masu_form", ("すごい".toList).dropLast ++ ['り'] ++ ("ます".toList)),
        ("te_form", ("すごい".toList).dropLast ++ ("って".toList)),
        ("ta_form", ("すごい".toList).dropLast ++ ("った".toList)),
        ("nai_form", ("すごい".toList).dropLast ++ ['ら'] ++ ("ない".toList)),
        ("nakatta_form", ("すごい".toList).dropLast ++ ['ら'] ++ ("なかった".toList)),
        ("ba_form", ("すごい".toList).dropLast ++ ['れ'] ++ ("ば".toList)),
        ("command_form", ("すごい".toList).dropLast ++ ['れ']),
        ("volitional_form", ("すごい".toList).dropLast ++ ['ろ'] ++ ("う".toList)),
        ("passive_form", ("すごい".toList).dropLast ++ ['ら'] ++ ("れる".toList)),
        ("causative_form", ("すごい".toList).dropLast ++ ['ら'] ++ ("せる".toList)),
        ("potential_form", ("すごい".toList).dropLast ++ ['れ'] ++ ("る".toList)),
        ("causative_passive_form", ("すごい".toList).dropLast ++ ['ら'] ++ ("せられる".toList))] :=
  godan_unknown_ending_fallback ("すごい".toList) ('い') (by decide) (by decide)

theorem is_ichidan_append_pair (u : List Char) (c : Char) :
    is_ichidan (u ++ [c, 'る']) = i_e_dan.contains c := by
  have hend : listEndsWith (u ++ [c, 'る']) ['る'] = true :=
    (listEndsWith_iff _ _).2 ⟨u ++ [c], by simp⟩
  have hlen : (u ++ [c, 'る']).length = u.length + 2 := by simp
  have hget : (u ++ [c, 'る']).getD (u.length + 2 - 2) ('る') = c := by
    simp only [Nat.add_sub_cancel]
    rw [List.getD_eq_getElem?_getD, List.getElem?_append_right (Nat.le_refl _)]
    simp
  simp only [is_ichidan, hend, Bool.not_true, Bool.false_eq_true, if_false, hlen]
  rw [if_neg (by omega), hget]

theorem is_ichidan_eq_true_iff (w : List Char) :
    is_ichidan w = true ↔ ∃ u c, w = u ++ [c, 'る'] ∧ c ∈ i_e_dan := by
  constructor
  · intro h
    have h1 : listEndsWith w ['る'] = true := by
      cases hh : listEndsWith w ['る'] with
      | true => rfl
      | false => simp [is_ichidan, hh] at h
    have h2 : ¬ w.length < 2 := by
      intro hlt
      simp [is_ichidan, h1, hlt] at h
    obtain ⟨v, hv⟩ := (listEndsWith_iff _ _).1 h1
    have hvne : v ≠ [] := by
      intro h0
      subst h0
      rw [← hv] at h2
      simp at h2
    obtain ⟨c, u, hu⟩ : ∃ c u, v = u ++ [c] :=
      ⟨v.getLast hvne, v.dropLast, (List.dropLast_concat_getLast hvne).symm⟩
    have hw : w = u ++ [c, 'る'] := by
      rw [← hv, hu]
      simp
    refine ⟨u, c, hw, ?_⟩
    rw [hw, is_ichidan_append_pair] at h
    simpa using h
  · rintro ⟨u, c, rfl, hc⟩
    rw [is_ichidan_append_pair]
    simpa using hc

/-- C2 counterexample: no 15-character set realizes the ichidan stem test; the
source set has sixteen characters, so the claim as stated (a fixed
15-character set) is false. -/
theorem ichidan_set_not_fifteen :
    ¬ ∃ S : Finset Char, S.card = 15
      ∧ ∀ w : List Char, is_ichidan w = true ↔ twoCharIchidan S w := by
  rintro ⟨S, hcard, hiff⟩
  have hS : S = i_e_dan_finset := by
    ext c
    rw [i_e_dan_finset, List.mem_toFinset]
    constructor
    · intro hc
      have h1 : is_ichidan ([] ++ [c, 'る']) = true := (hiff _).2 ⟨[], c, rfl, hc⟩
      rw [is_ichidan_append_pair] at h1
      simpa using h1
    · intro hc
      have h1 : is_ichidan ([] ++ [c, 'る']) = true := by
        rw [is_ichidan_append_pair]
        simpa using hc
      obtain ⟨u, c', heq, hc'⟩ := (hiff _).1 h1
      simp only [List.nil_append] at heq
      have hu : u = [] := by
        have hl := congrArg List.length heq
        simp only [List.length_cons, List.length_append, List.length_nil] at hl
        exact List.eq_nil_of_length_eq_zero (by omega)
      subst hu
      simp only [List.nil_append, List.cons.injEq, and_true] at heq
      rw [heq]
      exact hc'
  rw [hS] at hcard
  have h16 : i_e_dan_finset.card = 16 := by decide
  omega

/-- C2 amended: the ichidan stem test is exactly a two-character lookup
against the fixed sixteen-character i-row and e-row set: a dictionary form
qualifies if and only if it ends in る and the character immediately
preceding that final る belongs to that set. -/
theorem ichidan_two_char_lookup_sixteen :
    i_e_dan_finset.card = 16
    ∧ ∀ w : List Char, (is_ichidan w = true ↔ twoCharIchidan i_e_dan_finset w) := by
  constructor
  · decide
  · intro w
    rw [is_ichidan_eq_true_iff]
    constructor
    · rintro ⟨u, c, rfl, hc⟩
      exact ⟨u, c, rfl, by simp [i_e_dan_finset, List.mem_toFinset, hc]⟩
    · rintro ⟨u, c, rfl, hc⟩
      refine ⟨u, c, rfl, ?_⟩
      simpa [i_e_dan_finset, List.mem_toFinset] using hc

theorem isKanji_not_isHira (c : Char) (h : isKanji c = true) : isHira c = false := by
  simp only [isKanji, Bool.and_eq_true, decide_eq_true_eq] at h
  simp only [isHira, Bool.and_eq_false_iff, decide_eq_false_iff_not]
  omega

theorem isHira_not_isKanji (c : Char) (h : isHira c = true) : isKanji c = false := by
  simp only [isHira, Bool.and_eq_true, decide_eq_true_eq] at h
  simp only [isKanji, Bool.and_eq_false_iff, decide_eq_false_iff_not]
  omega

theorem takeKanjiReading_split (dfTail r0 k : List Char)
    (h1 : ∀ c ∈ r0, ¬ (isHira c = true ∧ dfTail.contains c = true))
    (h2 : ∀ c t, k = c :: t → isHira c = true ∧ dfTail.contains c = true) :
    takeKanjiReading dfTail (r0 ++ k) = (r0, k) := by
  induction r0 with
  | nil =>
    cases k with
    | nil => rfl
    | cons c t =>
      obtain ⟨hh, hcont⟩ := h2 c t rfl
      have hcond : (isHira c && dfTail.contains c) = true := by rw [hh, hcont]; rfl
      show takeKanjiReading dfTail (c :: t) = ([], c :: t)
      simp only [takeKanjiReading, hcond, if_true]
  | cons c ct ih =>
    have hc := h1 c (by simp)
    have hcond : (isHira c && dfTail.contains c) = false := by
      cases hh : isHira c with
      | false => rfl
      | true =>
        cases hco : dfTail.contains c with
        | false => rfl
        | true => exact absurd ⟨hh, hco⟩ hc
    have ihh := ih (fun x hx => h1 x (List.mem_cons_of_mem c hx))
    show takeKanjiReading dfTail (c :: (ct ++ k)) = (c :: ct, k)
    simp only [takeKanjiReading, hcond, Bool.false_eq_true, if_false]
    rw [ihh]

theorem buildKanjiMap_self_nil (l : List Char) (h : ∀ c ∈ l, isKanji c = false) :
    buildKanjiMap l l = [] := by
  induction l with
  | nil => rfl
  | cons c t ih =>
    have hck := h c (by simp)
    simp [buildKanjiMap, hck, ih (fun x hx => h x (List.mem_cons_of_mem c hx))]

theorem buildKanjiMap_kanji_block (K' : List Char) (kc : Char) (kt : List Char)
    (hkanji : ∀ c ∈ K', isKanji c = true)
    (hhira : isHira kc = true) :
    buildKanjiMap (K' ++ kc :: kt) (kc :: kt)
      = K'.map (fun c => (c, ([] : List Char))) ++ buildKanjiMap (kc :: kt) (kc :: kt) := by
  induction K' with
  | nil => simp
  | cons c ct ih =>
    have hc : isKanji c = true := hkanji c (by simp)
    have hcont : (ct ++ kc :: kt).contains kc = true := by simp
    have htake : takeKanjiReading (ct ++ kc :: kt) (kc :: kt) = ([], kc :: kt) := by
      simp [takeKanjiReading, hhira, hcont]
    have ihh := ih (fun x hx => hkanji x (List.mem_cons_of_mem c hx))
    simp [buildKanjiMap, hc, htake, ihh]

theorem buildKanjiMap_stem (K0 : Char) (K' r0 : List Char) (kc : Char) (kt : List Char)
    (hK0 : isKanji K0 = true) (hK' : ∀ c ∈ K', isKanji c = true)
    (hkana : ∀ c ∈ kc :: kt, isHira c = true)
    (hr0 : ∀ c ∈ r0, c ∉ kc :: kt) :
    buildKanjiMap ((K0 :: K') ++ kc :: kt) (r0 ++ kc :: kt)
      = (K0, r0) :: K'.map (fun c => (c, ([] : List Char))) := by
  have htake : takeKanjiReading (K' ++ kc :: kt) (r0 ++ kc :: kt) = (r0, kc :: kt) := by
    apply takeKanjiReading_split
    · intro c hc hand
      obtain ⟨hh, hcont⟩ := hand
      have hmem : c ∈ K' ++ kc :: kt := by simpa using hcont
      rcases List.mem_append.1 hmem with hK | hk
      · rw [isKanji_not_isHira c (hK' c hK)] at hh
        exact Bool.false_ne_true hh
      · exact hr0 c hc hk
    · intro c t hct
      injection hct with hc ht
      subst hc
      exact ⟨hkana kc (by simp), by simp⟩
  have hstep : buildKanjiMap ((K0 :: K') ++ kc :: kt) (r0 ++ kc :: kt)
      = (K0, r0) :: buildKanjiMap (K' ++ kc :: kt) (kc :: kt) := by
    simp [buildKanjiMap, hK0, htake]
  rw [hstep, buildKanjiMap_kanji_block K' kc kt hK' (hkana kc (by simp))]
  rw [buildKanjiMap_self_nil (kc :: kt)
    (fun c hc => isHira_not_isKanji c (hkana c hc))]
  simp

theorem substituteKanji_append (m : List (Char × List Char)) (a b : List Char) :
    substituteKanji m (a ++ b) = substituteKanji m a ++ substituteKanji m b := by
  induction a with
  | nil => rfl
  | cons c t ih => simp [substituteKanji, ih]

theorem substituteKanji_kana (m : List (Char × List Char)) (s : List Char)
    (h : ∀ c ∈ s, isKanji c = false) :
    substituteKanji m s = s := by
  induction s with
  | nil => rfl
  | cons c t ih =>
    simp [substituteKanji, h c (by simp), ih (fun x hx => h x (List.mem_cons_of_mem c hx))]

theorem lookupLast_map_nil_of_not_mem (K' : List Char) (x : Char) (hx : x ∉ K') :
    lookupLast (K'.map (fun c => (c, ([] : List Char)))) x = none := by
  induction K' with
  | nil => rfl
  | cons c t ih =>
    have hxt : x ∉ t := fun hh => hx (List.mem_cons_of_mem c hh)
    have hcx : (c == x) = false := by
      have hne : c ≠ x := fun hh => hx (by simp [hh])
      simp [hne]
    simp [lookupLast, ih hxt, hcx]

theorem lookupLast_map_mem (K' : List Char) (x : Char) (hx : x ∈ K') :
    lookupLast (K'.map (fun c => (c, ([] : List Char)))) x = some [] := by
  induction K' with
  | nil => cases hx
  | cons c t ih =>
    by_cases hxt : x ∈ t
    · simp [lookupLast, ih hxt]
    · have hcx : c = x := by
        rcases List.mem_cons.1 hx with h1 | h2
        · exact h1.symm
        · exact absurd h2 hxt
      simp [lookupLast, lookupLast_map_nil_of_not_mem t x hxt, hcx]

theorem substituteKanji_tail_nil (M : List (Char × List Char)) (K' : List Char)
    (h : ∀ c ∈ K', isKanji c = true ∧ lookupLast M c = some []) :
    substituteKanji M K' = [] := by
  induction K' with
  | nil => rfl
  | cons c t ih =>
    obtain ⟨hk, hl⟩ := h c (by simp)
    simp [substituteKanji, hk, hl, ih (fun x hx => h x (List.mem_cons_of_mem c hx))]

/-- C4 amended: when the dictionary form is a non-repeating kanji stem followed
by a pure-kana tail, the dictionary reading is a stem reading (sharing no
character with that tail) followed by the same tail, and the surface is the
same kanji stem followed by kana, the reconstructed reading equals the stem
reading concatenated with the kana suffix of the surface form. -/
theorem reading_stem_suffix_amended (K0 : Char) (K' : List Char) (kc : Char)
    (kt r0 s : List Char)
    (hK0 : isKanji K0 = true)
    (hK' : ∀ c ∈ K', isKanji c = true)
    (hK0nd : K0 ∉ K')
    (hkana : ∀ c ∈ kc :: kt, isHira c = true)
    (hr0 : ∀ c ∈ r0, c ∉ kc :: kt)
    (hs : ∀ c ∈ s, isKanji c = false)
    (hne : (K0 :: K') ++ s ≠ (K0 :: K') ++ kc :: kt) :
    generate_complete_reading ((K0 :: K') ++ s) ((K0 :: K') ++ kc :: kt) (r0 ++ kc :: kt)
      = r0 ++ s := by
  have hbeq : (((K0 :: K') ++ s) == ((K0 :: K') ++ kc :: kt)) = false := by
    simp only [beq_eq_false_iff_ne, ne_eq]
    exact hne
  unfold generate_complete_reading
  rw [hbeq]
  simp only [Bool.false_eq_true, if_false]
  rw [buildKanjiMap_stem K0 K' r0 kc kt hK0 hK' hkana hr0]
  rw [substituteKanji_append]
  rw [substituteKanji_kana _ s hs]
  have hK0look : lookupLast ((K0, r0) :: K'.map (fun c => (c, ([] : List Char)))) K0
      = some r0 := by
    simp [lookupLast, lookupLast_map_nil_of_not_mem K' K0 hK0nd]
  have htail : substituteKanji ((K0, r0) :: K'.map (fun c => (c, ([] : List Char)))) K'
      = [] := by
    apply substituteKanji_tail_nil
    intro c hc
    refine ⟨hK' c hc, ?_⟩
    simp [lookupLast, lookupLast_map_mem K' c hc]
  have hhead : substituteKanji ((K0, r0) :: K'.map (fun c => (c, ([] : List Char))))
      (K0 :: K') = r0 := by
    simp [substituteKanji, hK0, hK0look, htail]
  rw [hhead]

/-- C4 amended witness: 書く／かく with surface 書いて reconstructs to か + いて. -/
theorem reading_stem_suffix_amended_witness :
    generate_complete_reading (('書' :: []) ++ ("いて".toList)) (('書' :: []) ++ ('く' :: []))
        (("か".toList) ++ ('く' :: []))
      = ("か".toList) ++ ("いて".toList) :=
  reading_stem_suffix_amended ('書') [] ('く') [] ("か".toList) ("いて".toList)
    (by decide) (by decide) (by decide) (by decide) (by decide) (by decide) (by decide)

/-- C4 counterexample: for dictionary form 繰り返す (reading くりかえす) and surface
繰り返して — a dictionary form with a kanji after its first kana — the source
algorithm substitutes every kanji by its aligned reading and yields くりかえして,
while the claimed stem-reading + surface-suffix rule yields くり返して. -/
theorem reading_stem_suffix_counterexample :
    ("繰り返して".toList ≠ "繰り返す".toList)
    ∧ generate_complete_reading ("繰り返して".toList) ("繰り返す".toList) ("くりかえす".toList)
        = "くりかえして".toList
    ∧ spec_reconstruct_reading ("繰り返して".toList) ("繰り返す".toList) ("くりかえす".toList)
        = "くり返して".toList
    ∧ generate_complete_reading ("繰り返して".toList) ("繰り返す".toList) ("くりかえす".toList)
        ≠ spec_reconstruct_reading ("繰り返して".toList) ("繰り返す".toList) ("くりかえす".toList) :=
  ⟨by decide, by decide, by decide, by decide⟩
